import Mathlib

set_option autoImplicit false

/-!
Shallow embedding of `examples/examples/cors_server.rs` from the jsonrpsee
repository: a small example program that configures an access-control
policy, a CORS middleware layer, an HTTP JSON-RPC server bound to
`127.0.0.1:0`, registers the single method `say_hello`, starts the server,
prints a browser snippet and suspends forever.

External effects (OS socket binding, the tracing-subscriber initialisation,
the server start) are modelled by an explicit environment record; the
program functions are pure and thread the environment's outcomes through
`Except`, mirroring Rust's `Result` and the `?` operator.
-/

/-- An IPv4 address as four octets (Rust `std::net::Ipv4Addr`). -/
structure IPv4 where
  a : Nat
  b : Nat
  c : Nat
  d : Nat
deriving DecidableEq, Repr

/-- The loopback address `127.0.0.1`. -/
def IPv4.loopback : IPv4 := ⟨127, 0, 0, 1⟩

/-- Rendering of an IPv4 address in dotted-quad notation. -/
def IPv4.render (ip : IPv4) : String :=
  toString ip.a ++ "." ++ toString ip.b ++ "." ++ toString ip.c ++ "." ++ toString ip.d

/-- A socket address: IPv4 address plus port (Rust `std::net::SocketAddr`,
restricted to the V4 case, which is the only one this program uses). -/
structure SocketAddr where
  ip : IPv4
  port : Nat
deriving DecidableEq, Repr

/-- Rendering of a socket address, as Rust's `Display` for `SocketAddr`
prints it (`ip:port`), used by the `println!` in `main`. -/
def SocketAddr.render (s : SocketAddr) : String :=
  s.ip.render ++ ":" ++ toString s.port

/-- Split a character list at every occurrence of `sep` (the string
splitting the std address parser performs). -/
def splitOnChar (sep : Char) : List Char → List (List Char)
  | [] => [[]]
  | c :: cs =>
    let rest := splitOnChar sep cs
    if c = sep then [] :: rest
    else
      match rest with
      | [] => [[c]]
      | r :: rs => (c :: r) :: rs

/-- The numeric value of a decimal digit character, `none` otherwise. -/
def digitVal (c : Char) : Option Nat :=
  if '0' ≤ c ∧ c ≤ '9' then some (c.toNat - 48) else none

/-- Accumulate a decimal number over a digit list; fails on a non-digit. -/
def digitsToNatAux (acc : Nat) : List Char → Option Nat
  | [] => some acc
  | c :: cs =>
    match digitVal c with
    | some d => digitsToNatAux (10 * acc + d) cs
    | none => none

/-- Parse a nonempty all-digit character list as a decimal number. -/
def digitsToNat : List Char → Option Nat
  | [] => none
  | cs => digitsToNatAux 0 cs

/-- Parse one decimal octet of an IPv4 address: digits only, value at
most 255. -/
def parseOctet (cs : List Char) : Option Nat :=
  match digitsToNat cs with
  | some n => if n ≤ 255 then some n else none
  | none => none

/-- Parse a dotted-quad IPv4 address. -/
def parseIPv4 (cs : List Char) : Option IPv4 :=
  match splitOnChar '.' cs with
  | [x, y, z, w] =>
    match parseOctet x, parseOctet y, parseOctet z, parseOctet w with
    | some a, some b, some c, some d => some ⟨a, b, c, d⟩
    | _, _, _, _ => none
  | _ => none

/-- Parse `"ip:port"` into a `SocketAddr` (Rust
`"127.0.0.1:0".parse::<SocketAddr>()`); fails on malformed input. -/
def parseSocketAddr (s : String) : Option SocketAddr :=
  match splitOnChar ':' s.data with
  | [ipStr, portStr] =>
    match parseIPv4 ipStr, digitsToNat portStr with
    | some ip, some p => if p < 65536 then some ⟨ip, p⟩ else none
    | _, _ => none
  | _ => none

/-- HTTP methods (the `http` crate's `Method` type, common cases). -/
inductive Method where
  | GET
  | POST
  | PUT
  | DELETE
  | OPTIONS
  | HEAD
  | PATCH
  | TRACE
  | CONNECT
deriving DecidableEq, Repr

/-- Origin policy of a `tower_http` CORS layer: either a fixed list of
allowed origins, or `Any` (every origin allowed). `CorsLayer::new()`
starts with the empty list. -/
inductive OriginPolicy where
  | list (origins : List String)
  | any
deriving DecidableEq, Repr

/-- `tower_http::cors::CorsLayer`: which methods, origins and request
headers the CORS middleware permits. `CorsLayer::new()` permits nothing. -/
structure CorsLayer where
  methods : List Method
  origin : OriginPolicy
  headers : List String
deriving DecidableEq, Repr

/-- `CorsLayer::new()`: empty policy, nothing allowed yet. -/
def CorsLayer.new : CorsLayer := ⟨[], OriginPolicy.list [], []⟩

/-- `CorsLayer::allow_methods`: replaces the allowed-methods list. -/
def CorsLayer.allow_methods (c : CorsLayer) (ms : List Method) : CorsLayer :=
  { c with methods := ms }

/-- `CorsLayer::allow_origin(Any)` / a list of origins: replaces the
origin policy. -/
def CorsLayer.allow_origin (c : CorsLayer) (o : OriginPolicy) : CorsLayer :=
  { c with origin := o }

/-- `CorsLayer::allow_headers`: replaces the allowed request headers. -/
def CorsLayer.allow_headers (c : CorsLayer) (hs : List String) : CorsLayer :=
  { c with headers := hs }

/-- Does the CORS policy permit the given HTTP method? -/
def CorsLayer.permitsMethod (c : CorsLayer) (m : Method) : Bool :=
  c.methods.contains m

/-- Does the CORS policy permit a request from the given origin? -/
def CorsLayer.permitsOrigin (c : CorsLayer) (o : String) : Bool :=
  match c.origin with
  | OriginPolicy.any => true
  | OriginPolicy.list os => os.contains o

/-- Does the CORS policy permit the given request header name? -/
def CorsLayer.permitsHeader (c : CorsLayer) (h : String) : Bool :=
  c.headers.contains h

/-- The name of the `hyper::header::CONTENT_TYPE` header. -/
def contentTypeHeader : String := "content-type"

/-- Modelled from the spec: jsonrpsee's host/origin access-control filter
(`core::server::access_control`), whose source is not part of this
repository snapshot; the spec describes it as "a request-filtering policy
based on Host/Origin header matching" with an "allow-all host/origin
policy" option. A filter is either a whitelist or allow-all. -/
inductive AllowFilter where
  | only (allowed : List String)
  | all
deriving DecidableEq, Repr

/-- Modelled from the spec: the built access-control policy, "an immutable
value specifying which hosts and origins are permitted". -/
structure AccessControl where
  hosts : AllowFilter
  origins : AllowFilter
deriving DecidableEq, Repr

/-- Modelled from the spec: the builder for `AccessControl`; `new()`
starts from a default and the `allow_all_*` calls set the corresponding
filter to allow-all. -/
structure AccessControlBuilder where
  hosts : AllowFilter
  origins : AllowFilter
deriving DecidableEq, Repr

/-- Modelled from the spec: `AccessControlBuilder::new()`. -/
def AccessControlBuilder.new : AccessControlBuilder :=
  ⟨AllowFilter.only [], AllowFilter.only []⟩

/-- Modelled from the spec: `allow_all_hosts` sets the host filter to
allow-all. -/
def AccessControlBuilder.allow_all_hosts (b : AccessControlBuilder) : AccessControlBuilder :=
  { b with hosts := AllowFilter.all }

/-- Modelled from the spec: `allow_all_origins` sets the origin filter to
allow-all. -/
def AccessControlBuilder.allow_all_origins (b : AccessControlBuilder) : AccessControlBuilder :=
  { b with origins := AllowFilter.all }

/-- Modelled from the spec: `build()` produces the immutable policy. -/
def AccessControlBuilder.build (b : AccessControlBuilder) : AccessControl :=
  ⟨b.hosts, b.origins⟩

/-- Does the access-control policy permit the given host? -/
def AccessControl.permitsHost (ac : AccessControl) (h : String) : Bool :=
  match ac.hosts with
  | AllowFilter.all => true
  | AllowFilter.only hs => hs.contains h

/-- Does the access-control policy permit the given origin? -/
def AccessControl.permitsOrigin (ac : AccessControl) (o : String) : Bool :=
  match ac.origins with
  | AllowFilter.all => true
  | AllowFilter.only os => os.contains o

/-- Request parameters handed to an RPC handler (the raw JSON params of
the call; the `say_hello` closure ignores them). -/
structure RpcParams where
  raw : String
deriving DecidableEq, Repr

/-- A JSON-RPC call error (the `Err` side a handler could return; the
`say_hello` closure never constructs one). -/
structure RpcError where
  message : String
deriving DecidableEq, Repr

/-- A synchronous RPC handler: given the request params and the (unit)
context, produces the lines it prints to standard output together with
its `Result`. -/
def RpcHandler : Type :=
  RpcParams → Unit → List String × Except RpcError String

/-- The `say_hello` closure of `run_server`: prints
`say_hello method called!` and returns `Ok("Hello there!!")`, ignoring
both of its arguments. -/
def say_hello : RpcHandler :=
  fun _ _ => (["say_hello method called!"], Except.ok "Hello there!!")

/-- Modelled from the spec: jsonrpsee's `RpcModule` ("a mapping from
method name (string, unique) to a handler function"); its source is not
part of this repository snapshot. -/
structure RpcModule where
  methods : List (String × RpcHandler)

/-- Modelled from the spec: `RpcModule::new(())`, the empty method table. -/
def RpcModule.new : RpcModule := ⟨[]⟩

/-- Modelled from the spec: `register_method` adds a handler under a
unique name; it fails exactly on a duplicate method name. -/
def RpcModule.register_method (m : RpcModule) (name : String) (h : RpcHandler) :
    Except String RpcModule :=
  if m.methods.any (fun p => p.1 == name) then
    Except.error "method already registered"
  else
    Except.ok ⟨m.methods ++ [(name, h)]⟩

/-- The running-server handle returned by `server.start(module)`
(jsonrpsee `HttpServerHandle`), carrying the frozen method table the
server answers requests from. -/
structure HttpServerHandle where
  methods : List (String × RpcHandler)

/-- The built (bound, not yet started) HTTP server: the address the OS
bound it to plus the two attached policies. -/
structure HttpServer where
  boundAddr : SocketAddr
  acl : AccessControl
  cors : CorsLayer

/-- The environment the bootstrapper runs in: the outcome of the OS
`bind` call for a requested address (on success, the concretely bound
address — for a requested port 0 the OS picks a free port), and the
outcome of starting the server loop. -/
structure ServerEnv where
  bindOutcome : SocketAddr → Except String SocketAddr
  startOutcome : Except String Unit

/-- The error type of `run_server` (Rust `anyhow::Error`): one
constructor per failure source, each carrying the underlying error
unchanged. -/
inductive BootError where
  | addrParse
  | bindFailed (e : String)
  | registerFailed (e : String)
  | localAddrFailed (e : String)
  | startFailed (e : String)
deriving DecidableEq, Repr

/-- `HttpServerBuilder::default().set_access_control(acl)
.set_middleware(middleware).build(addr)`: asks the environment to bind
`addr`; on success the server holds the concretely bound address and the
two policies. -/
def buildServer (env : ServerEnv) (acl : AccessControl) (cors : CorsLayer)
    (addr : SocketAddr) : Except BootError HttpServer :=
  match env.bindOutcome addr with
  | Except.error e => Except.error (BootError.bindFailed e)
  | Except.ok bound => Except.ok ⟨bound, acl, cors⟩

/-- `server.local_addr()`: the address the listener is bound to; after a
successful `build` this succeeds with the bound address. -/
def HttpServer.local_addr (srv : HttpServer) : Except BootError SocketAddr :=
  Except.ok srv.boundAddr

/-- `server.start(module)`: asks the environment to start the accept
loop; on success returns the handle carrying the module's method table,
which is never modified afterwards. -/
def HttpServer.start (_s : HttpServer) (env : ServerEnv) (m : RpcModule) :
    Except BootError HttpServerHandle :=
  match env.startOutcome with
  | Except.error e => Except.error (BootError.startFailed e)
  | Except.ok _ => Except.ok ⟨m.methods⟩

/-- The access-control policy `run_server` constructs:
`AccessControlBuilder::new().allow_all_hosts().allow_all_origins().build()`. -/
def aclUsed : AccessControl :=
  AccessControlBuilder.new.allow_all_hosts.allow_all_origins.build

/-- The CORS policy `run_server` constructs: `CorsLayer::new()
.allow_methods([Method::POST]).allow_origin(Any)
.allow_headers([hyper::header::CONTENT_TYPE])`. -/
def corsUsed : CorsLayer :=
  ((CorsLayer.new.allow_methods [Method.POST]).allow_origin
    OriginPolicy.any).allow_headers [contentTypeHeader]

/-- `run_server`: builds the access-control and CORS policies, parses
`"127.0.0.1:0"`, builds (binds) the server, registers `say_hello`, reads
the local address, starts the server, and returns the pair of the bound
address and the handle; every `?` propagates the error unchanged. -/
def run_server (env : ServerEnv) : Except BootError (SocketAddr × HttpServerHandle) :=
  let acl := aclUsed
  let cors := corsUsed
  match parseSocketAddr "127.0.0.1:0" with
  | none => Except.error BootError.addrParse
  | some bindAddr =>
    match buildServer env acl cors bindAddr with
    | Except.error e => Except.error e
    | Except.ok server =>
      match RpcModule.new.register_method "say_hello" say_hello with
      | Except.error e => Except.error (BootError.registerFailed e)
      | Except.ok module =>
        match server.local_addr with
        | Except.error e => Except.error e
        | Except.ok addr =>
          match server.start env module with
          | Except.error e => Except.error e
          | Except.ok server_handle => Except.ok (addr, server_handle)

/-- The text of the second `println!` in `main` before the interpolated
server address (braces and apostrophes of the Rust raw string written as
escapes). -/
def snippetPre : String :=
  "\n        fetch(\"http://"

/-- The text of the second `println!` in `main` after the interpolated
server address. -/
def snippetPost : String :=
  "\", \x7b\n            method: \x27POST\x27,\n            mode: \x27cors\x27,\n            headers: \x7b \x27Content-Type\x27: \x27application/json\x27 \x7d,\n            body: JSON.stringify(\x7b\n                jsonrpc: \x272.0\x27,\n                method: \x27say_hello\x27,\n                id: 1\n            \x7d)\n        \x7d).then(res => \x7b\n            console.log(\"Response:\", res);\n            return res.text()\n        \x7d).then(body => \x7b\n            console.log(\"Response Body:\", body)\n        \x7d);\n    "

/-- The first `println!` of `main` after a successful bootstrap. -/
def instructionLine : String :=
  "Run the following snippet in the developer console in any Website."

/-- The lines `main` prints after a successful bootstrap: the fixed
instruction line, then the browser-script snippet with the bound address
interpolated. -/
def printedLines (addr : SocketAddr) : List String :=
  [instructionLine, snippetPre ++ addr.render ++ snippetPost]

/-- The observable outcome of `main`: the tracing-subscriber `expect`
panicked; or `run_server`'s error was propagated out of `main`; or the
bootstrap succeeded, the snippet was printed and `main` suspends forever
on `futures::future::pending()`. -/
inductive MainResult where
  | subscriberPanic (e : String)
  | bootFailure (e : BootError)
  | runningForever (addr : SocketAddr) (printed : List String)

/-- The full process environment: the outcome of
`tracing_subscriber::...try_init()` plus the server environment. -/
structure ProcEnv where
  subscriberInit : Except String Unit
  server : ServerEnv

namespace CorsServer

/-- `main`: initialises the subscriber (panicking on failure), runs the
bootstrapper (propagating its error unchanged), prints the instructions
and suspends forever. -/
def main (env : ProcEnv) : MainResult :=
  match env.subscriberInit with
  | Except.error e => MainResult.subscriberPanic e
  | Except.ok _ =>
    match run_server env.server with
    | Except.error e => MainResult.bootFailure e
    | Except.ok (server_addr, _handle) =>
      MainResult.runningForever server_addr (printedLines server_addr)

end CorsServer

/-- The process exit status each `main` outcome leads to: a Rust panic
exits with status 101; `main` returning an `anyhow` error exits with
status 1; the running-forever outcome never exits (`none`). -/
def exitStatus : MainResult → Option Nat
  | MainResult.subscriberPanic _ => some 101
  | MainResult.bootFailure _ => some 1
  | MainResult.runningForever _ _ => none

/-- Whether the server was started in the given `main` outcome. -/
def serverStarted : MainResult → Bool
  | MainResult.runningForever _ _ => true
  | _ => false

/-! ## Characterisation of `run_server` -/

/-- The handle produced by a successful `run_server`: its method table
holds exactly the single `say_hello` registration. -/
def handleUsed : HttpServerHandle := ⟨[("say_hello", say_hello)]⟩

/-- The outcome of `run_server` once the closed parts (address parsing
and the `say_hello` registration into the fresh module) are evaluated:
it is decided by the bind outcome at `127.0.0.1:0` and then by the start
outcome. -/
def runServerOutcome (env : ServerEnv) : Except BootError (SocketAddr × HttpServerHandle) :=
  match env.bindOutcome ⟨IPv4.loopback, 0⟩ with
  | Except.error e => Except.error (BootError.bindFailed e)
  | Except.ok bound =>
    match env.startOutcome with
    | Except.error e => Except.error (BootError.startFailed e)
    | Except.ok _ => Except.ok (bound, handleUsed)

theorem parse_bind_addr : parseSocketAddr "127.0.0.1:0" = some ⟨IPv4.loopback, 0⟩ := rfl

theorem register_say_hello :
    RpcModule.new.register_method "say_hello" say_hello = Except.ok ⟨[("say_hello", say_hello)]⟩ :=
  rfl

theorem run_server_eq (env : ServerEnv) : run_server env = runServerOutcome env := by
  cases hb : env.bindOutcome ⟨IPv4.loopback, 0⟩ with
  | error e =>
    simp [run_server, runServerOutcome, buildServer, parse_bind_addr, hb]
  | ok bound =>
    cases hs : env.startOutcome with
    | error e =>
      simp [run_server, runServerOutcome, buildServer, parse_bind_addr, hb,
        register_say_hello, HttpServer.local_addr, HttpServer.start, hs, handleUsed]
    | ok u =>
      simp [run_server, runServerOutcome, buildServer, parse_bind_addr, hb,
        register_say_hello, HttpServer.local_addr, HttpServer.start, hs, handleUsed]

/-! ## Concrete environments used by the witnesses -/

/-- A well-behaved environment: binding succeeds, the OS assigning port
33000 when the requested port is 0, and the server starts. -/
def envOk : ServerEnv :=
  ⟨fun a => Except.ok ⟨a.ip, if a.port = 0 then 33000 else a.port⟩, Except.ok ()⟩

/-- The address `envOk` binds `127.0.0.1:0` to. -/
def addr33000 : SocketAddr := ⟨IPv4.loopback, 33000⟩

/-- A full process environment over `envOk` whose subscriber initialises. -/
def envOkProc : ProcEnv := ⟨Except.ok (), envOk⟩

/-- A process environment whose socket bind fails. -/
def envBindFail : ProcEnv :=
  ⟨Except.ok (), ⟨fun _ => Except.error "address in use", Except.ok ()⟩⟩

/-! ## The claims -/

/-- C1. For every invocation of the registered `say_hello` handler,
regardless of the request parameters and context, the handler writes
exactly one line to standard output, returns a fixed success value that
does not depend on its arguments, and never returns an error: its error
branch is unreachable. -/
theorem say_hello_always_succeeds (p : RpcParams) (c : Unit) :
    (∃ line, (say_hello p c).1 = [line]) ∧
    (∃ r, (say_hello p c).2 = Except.ok r ∧ ∀ q d, (say_hello q d).2 = Except.ok r) ∧
    (∀ e, (say_hello p c).2 ≠ Except.error e) :=
  ⟨⟨"say_hello method called!", rfl⟩,
   ⟨"Hello there!!", rfl, fun _ _ => rfl⟩,
   fun _ h => Except.noConfusion h⟩

/-- C10. The fixed success value of `say_hello` is exactly the string
`Hello there!!`, and the line it writes to standard output on every call
is exactly `say_hello method called!`. -/
theorem say_hello_exact_strings (p : RpcParams) (c : Unit) :
    say_hello p c = (["say_hello method called!"], Except.ok "Hello there!!") :=
  rfl

/-- C2. The CORS policy `run_server` constructs permits exactly the HTTP
method `POST` and no other, permits every origin, and permits exactly the
request header `Content-Type` and no other. -/
theorem cors_policy_exact :
    (∀ m, corsUsed.permitsMethod m = true ↔ m = Method.POST) ∧
    (∀ o, corsUsed.permitsOrigin o = true) ∧
    (∀ h, corsUsed.permitsHeader h = true ↔ h = contentTypeHeader) := by
  refine ⟨fun m => ?_, fun o => rfl, fun h => ?_⟩
  · cases m <;> simp [corsUsed, CorsLayer.permitsMethod, CorsLayer.new,
      CorsLayer.allow_methods, CorsLayer.allow_origin, CorsLayer.allow_headers]
  · simp [corsUsed, CorsLayer.permitsHeader, CorsLayer.new,
      CorsLayer.allow_methods, CorsLayer.allow_origin, CorsLayer.allow_headers]

/-- C4. The access-control policy `run_server` constructs is the
allow-all policy: it permits every host and every origin. -/
theorem acl_allows_every_host_and_origin :
    (∀ h, aclUsed.permitsHost h = true) ∧ (∀ o, aclUsed.permitsOrigin o = true) :=
  ⟨fun _ => rfl, fun _ => rfl⟩

/-- C3. The server is built with the fixed bind address `127.0.0.1` and
port 0 (the OS choosing a free port): the parsed bind address is exactly
`127.0.0.1:0`, a bind failure there is the failure `run_server` reports,
and — assuming the OS bind contract that a successful bind of
`127.0.0.1:0` yields the same loopback IP and a nonzero port — every
successful `run_server` returns an address with IP `127.0.0.1` and a
nonzero port. -/
theorem run_server_loopback_nonzero_port (env : ServerEnv)
    (hos : ∀ a', env.bindOutcome ⟨IPv4.loopback, 0⟩ = Except.ok a' →
      a'.ip = IPv4.loopback ∧ a'.port ≠ 0) :
    parseSocketAddr "127.0.0.1:0" = some ⟨IPv4.loopback, 0⟩ ∧
    (∀ e, env.bindOutcome ⟨IPv4.loopback, 0⟩ = Except.error e →
      run_server env = Except.error (BootError.bindFailed e)) ∧
    (∀ addr h, run_server env = Except.ok (addr, h) →
      addr.ip = IPv4.loopback ∧ addr.port ≠ 0) := by
  refine ⟨rfl, fun e he => ?_, fun addr h hok => ?_⟩
  · rw [run_server_eq]
    simp [runServerOutcome, he]
  · rw [run_server_eq] at hok
    unfold runServerOutcome at hok
    cases hb : env.bindOutcome ⟨IPv4.loopback, 0⟩ with
    | error e => rw [hb] at hok; exact absurd hok (by simp)
    | ok bound =>
      rw [hb] at hok
      cases hs : env.startOutcome with
      | error e => rw [hs] at hok; exact absurd hok (by simp)
      | ok u =>
        rw [hs] at hok
        have hba : bound = addr := by
          have := congrArg (fun x => match x with
            | Except.ok (a, _) => a
            | Except.error _ => bound) hok
          simpa using this
        exact hba ▸ hos bound hb

/-- Witness for C3: the OS contract holds in `envOk` and the conclusion
is realised there. -/
theorem run_server_loopback_nonzero_port_witness :
    parseSocketAddr "127.0.0.1:0" = some ⟨IPv4.loopback, 0⟩ ∧
    (∀ e, envOk.bindOutcome ⟨IPv4.loopback, 0⟩ = Except.error e →
      run_server envOk = Except.error (BootError.bindFailed e)) ∧
    (∀ addr h, run_server envOk = Except.ok (addr, h) →
      addr.ip = IPv4.loopback ∧ addr.port ≠ 0) :=
  run_server_loopback_nonzero_port envOk (fun a' ha' => by
    simp only [envOk] at ha'
    cases ha'
    exact ⟨rfl, by decide⟩)

/-- C7. The RPC method table is populated exactly once before the server
starts: the single registration of `say_hello` into the fresh module
succeeds with the singleton table, and the handle of every successful
`run_server` carries exactly that table. The embedding is pure, so no
operation can modify the table after `start` — the handle's table is a
fixed value. -/
theorem method_table_frozen_before_start (env : ServerEnv) (addr : SocketAddr)
    (h : HttpServerHandle) (hok : run_server env = Except.ok (addr, h)) :
    RpcModule.new.register_method "say_hello" say_hello =
      Except.ok ⟨[("say_hello", say_hello)]⟩ ∧
    h.methods = [("say_hello", say_hello)] := by
  refine ⟨register_say_hello, ?_⟩
  rw [run_server_eq] at hok
  unfold runServerOutcome at hok
  cases hb : env.bindOutcome ⟨IPv4.loopback, 0⟩ with
  | error e => rw [hb] at hok; exact absurd hok (by simp)
  | ok bound =>
    rw [hb] at hok
    cases hs : env.startOutcome with
    | error e => rw [hs] at hok; exact absurd hok (by simp)
    | ok u =>
      rw [hs] at hok
      have hh : handleUsed = h := by
        have := congrArg (fun x => match x with
          | Except.ok (_, hd) => hd
          | Except.error _ => handleUsed) hok
        simpa using this
      rw [← hh]
      rfl

/-- Witness for C7: in `envOk` the bootstrap succeeds and the handle's
table is the singleton `say_hello` registration. -/
theorem method_table_frozen_before_start_witness :
    RpcModule.new.register_method "say_hello" say_hello =
      Except.ok ⟨[("say_hello", say_hello)]⟩ ∧
    handleUsed.methods = [("say_hello", say_hello)] :=
  method_table_frozen_before_start envOk addr33000 handleUsed rfl

/-- C8. On success `run_server` returns exactly the pair of the address
the OS bound `127.0.0.1:0` to and the handle of the running server; it
fails exactly when binding fails, or the `say_hello` registration fails
(which in this program never happens: the module is fresh), or the
server start fails. -/
theorem run_server_success_failure_shape (env : ServerEnv) :
    (∀ addr h, run_server env = Except.ok (addr, h) →
      env.bindOutcome ⟨IPv4.loopback, 0⟩ = Except.ok addr ∧ h = handleUsed) ∧
    ((∃ e, run_server env = Except.error e) ↔
      ((∃ e, env.bindOutcome ⟨IPv4.loopback, 0⟩ = Except.error e) ∨
       (∃ e, RpcModule.new.register_method "say_hello" say_hello = Except.error e) ∨
       (∃ e, env.startOutcome = Except.error e))) := by
  constructor
  · intro addr h hok
    rw [run_server_eq] at hok
    unfold runServerOutcome at hok
    cases hb : env.bindOutcome ⟨IPv4.loopback, 0⟩ with
    | error e => rw [hb] at hok; exact absurd hok (by simp)
    | ok bound =>
      rw [hb] at hok
      cases hs : env.startOutcome with
      | error e => rw [hs] at hok; exact absurd hok (by simp)
      | ok u =>
        rw [hs] at hok
        cases hok
        exact ⟨rfl, rfl⟩
  · constructor
    · rintro ⟨e, he⟩
      rw [run_server_eq] at he
      unfold runServerOutcome at he
      cases hb : env.bindOutcome ⟨IPv4.loopback, 0⟩ with
      | error e2 => exact Or.inl ⟨e2, rfl⟩
      | ok bound =>
        rw [hb] at he
        cases hs : env.startOutcome with
        | error e2 => exact Or.inr (Or.inr ⟨e2, rfl⟩)
        | ok u => rw [hs] at he; exact absurd he (by simp)
    · rintro (⟨e, he⟩ | ⟨e, he⟩ | ⟨e, he⟩)
      · exact ⟨BootError.bindFailed e, by rw [run_server_eq]; unfold runServerOutcome; rw [he]⟩
      · rw [register_say_hello] at he
        exact absurd he (by simp)
      · cases hb : env.bindOutcome ⟨IPv4.loopback, 0⟩ with
        | error e2 =>
          exact ⟨BootError.bindFailed e2, by
            rw [run_server_eq]; unfold runServerOutcome; rw [hb]⟩
        | ok bound =>
          exact ⟨BootError.startFailed e, by
            rw [run_server_eq]; unfold runServerOutcome; rw [hb, he]⟩

/-- C5. Whenever `run_server` fails — at address parsing, building and
binding, registration or start, i.e. with any `BootError` — `main`
propagates exactly that error, unchanged, and the process terminates
with a nonzero exit status. -/
theorem main_propagates_boot_error (env : ProcEnv) (e : BootError)
    (hsub : env.subscriberInit = Except.ok ())
    (hrun : run_server env.server = Except.error e) :
    CorsServer.main env = MainResult.bootFailure e ∧
    ∃ n, exitStatus (CorsServer.main env) = some n ∧ n ≠ 0 := by
  have hm : CorsServer.main env = MainResult.bootFailure e := by
    unfold CorsServer.main
    rw [hsub, hrun]
  exact ⟨hm, 1, by rw [hm]; rfl, one_ne_zero⟩

/-- Witness for C5: in `envBindFail` the bind fails, `main` reports
exactly that bind failure and the exit status is nonzero. -/
theorem main_propagates_boot_error_witness :
    CorsServer.main envBindFail =
      MainResult.bootFailure (BootError.bindFailed "address in use") ∧
    ∃ n, exitStatus (CorsServer.main envBindFail) = some n ∧ n ≠ 0 :=
  main_propagates_boot_error envBindFail (BootError.bindFailed "address in use") rfl rfl

/-- C6. After a successful bootstrap, `main` prints the fixed instruction
line followed by the browser-script snippet containing the rendered bound
socket address, and then suspends forever on `futures::future::pending()`:
its outcome is `runningForever`, which has no exit status — `main` never
returns after a successful startup. -/
theorem main_prints_snippet_and_suspends (env : ProcEnv) (addr : SocketAddr)
    (h : HttpServerHandle)
    (hsub : env.subscriberInit = Except.ok ())
    (hrun : run_server env.server = Except.ok (addr, h)) :
    CorsServer.main env = MainResult.runningForever addr (printedLines addr) ∧
    (∃ pre post, printedLines addr = [instructionLine, pre ++ addr.render ++ post]) ∧
    exitStatus (CorsServer.main env) = none := by
  have hm : CorsServer.main env = MainResult.runningForever addr (printedLines addr) := by
    unfold CorsServer.main
    rw [hsub, hrun]
  exact ⟨hm, ⟨snippetPre, snippetPost, rfl⟩, by rw [hm]; rfl⟩

/-- Witness for C6: in `envOkProc` the bootstrap succeeds at
`127.0.0.1:33000` and `main` runs forever after printing the snippet. -/
theorem main_prints_snippet_and_suspends_witness :
    CorsServer.main envOkProc = MainResult.runningForever addr33000 (printedLines addr33000) ∧
    (∃ pre post, printedLines addr33000 = [instructionLine, pre ++ addr33000.render ++ post]) ∧
    exitStatus (CorsServer.main envOkProc) = none :=
  main_prints_snippet_and_suspends envOkProc addr33000 handleUsed rfl rfl

/-- C9. The entry point initialises the tracing subscriber as its first
action: if that initialisation fails, `main` panics with that error
before touching the server — for every server environment the outcome is
the same `subscriberPanic`, the exit status is nonzero, and no server is
started. -/
theorem subscriber_failure_is_fatal (e : String) (srv : ServerEnv) :
    CorsServer.main ⟨Except.error e, srv⟩ = MainResult.subscriberPanic e ∧
    (∃ n, exitStatus (CorsServer.main ⟨Except.error e, srv⟩) = some n ∧ n ≠ 0) ∧
    serverStarted (CorsServer.main ⟨Except.error e, srv⟩) = false :=
  ⟨rfl, ⟨101, rfl, by decide⟩, rfl⟩
